import Mathlib

/-
  Verification of the FocusFlow task-management application.

  The data model follows backend/supabase_schema.sql; the frontend logic
  (Pomodoro timer, add-task dialog, priority badges) is embedded from the
  React components.  The backend business logic (Rollover Engine, Priority
  Ranker, Daily Plan writes) is not among the provided sources, so those
  operations are modelled from the specification, as marked on each
  definition.
-/

namespace FocusFlow

/-- Pomodoro session kinds, as the string union used by the timer component
(`"work" | "short_break" | "long_break"`). -/
inductive SessionKind where
  | work
  | short_break
  | long_break
deriving DecidableEq, Repr

/-- A row of `public.tasks` (backend/supabase_schema.sql lines 5-23).
UUIDs are modelled as `Nat`; `timestamptz` and `date` columns as day/instant
ordinals (`Nat`); nullable columns as `Option`. -/
structure Task where
  id : Nat
  title : String
  description : String
  deadline : Option Nat
  estimated_minutes : Option Nat
  category : String
  source : String
  source_id : Option String
  priority_score : Int
  priority_reason : String
  completed : Bool
  started_at : Option Nat
  completed_at : Option Nat
  time_spent_seconds : Nat
  created_at : Nat
  scheduled_date : Nat
  rollover_count : Nat
deriving DecidableEq, Repr

/-- A row of `public.settings` (backend/supabase_schema.sql lines 46-60),
restricted to the fields the verified components read. -/
structure Settings where
  pomodoro_work_minutes : Nat
  pomodoro_short_break : Nat
  pomodoro_long_break : Nat
  daily_task_limit : Nat
  auto_rollover : Bool
deriving DecidableEq, Repr

/-- The default settings row the schema initializes (`insert into public.settings`). -/
def defaultSettings : Settings :=
  { pomodoro_work_minutes := 25
    pomodoro_short_break := 5
    pomodoro_long_break := 15
    daily_task_limit := 4
    auto_rollover := true }

/-- A task row populated with the schema's column defaults. -/
def defaultTask : Task :=
  { id := 0
    title := "task"
    description := ""
    deadline := none
    estimated_minutes := some 25
    category := "general"
    source := "manual"
    source_id := none
    priority_score := 0
    priority_reason := ""
    completed := false
    started_at := none
    completed_at := none
    time_spent_seconds := 0
    created_at := 0
    scheduled_date := 0
    rollover_count := 0 }

/-- Modelled from the spec: the backend rollover endpoint (`POST /rollover`,
Rollover Engine of spec section 4.2) is not among the provided sources.  Per-task
action: a task with `scheduled_date < as_of` and `completed = false` is
rescheduled to `as_of` with `rollover_count` incremented by 1; any other task
is left unchanged. -/
def rolloverTask (asOf : Nat) (t : Task) : Task :=
  if t.scheduled_date < asOf ∧ t.completed = false then
    { t with scheduled_date := asOf, rollover_count := t.rollover_count + 1 }
  else t

/-- Modelled from the spec: the Rollover Engine applied to the whole task
store for a given as-of date (spec section 4.2: per-task isolation, each task
updated independently). -/
def rollover (asOf : Nat) (store : List Task) : List Task :=
  store.map (rolloverTask asOf)

theorem rolloverTask_idem (asOf : Nat) (t : Task) :
    rolloverTask asOf (rolloverTask asOf t) = rolloverTask asOf t := by
  unfold rolloverTask
  by_cases h : t.scheduled_date < asOf ∧ t.completed = false
  · simp [h]
  · simp [h]

/-- C1: running the Rollover Engine once for an as-of date reschedules every
incomplete task scheduled before that date to the as-of date, incrementing its
rollover count by exactly 1 and leaving every other task unchanged, and running
it a second consecutive time for the same as-of date changes no task. -/
theorem rollover_engine_idempotent (asOf : Nat) (store : List Task) :
    (∀ t ∈ store, t.scheduled_date < asOf → t.completed = false →
        rolloverTask asOf t ∈ rollover asOf store ∧
        (rolloverTask asOf t).scheduled_date = asOf ∧
        (rolloverTask asOf t).rollover_count = t.rollover_count + 1) ∧
    (∀ t ∈ store, ¬(t.scheduled_date < asOf ∧ t.completed = false) →
        rolloverTask asOf t = t) ∧
    rollover asOf (rollover asOf store) = rollover asOf store := by
  refine ⟨?_, ?_, ?_⟩
  · intro t ht h1 h2
    refine ⟨List.mem_map_of_mem _ ht, ?_, ?_⟩ <;> simp [rolloverTask, h1, h2]
  · intro t _ h
    simp [rolloverTask, h]
  · unfold rollover
    rw [List.map_map]
    exact List.map_congr_left fun t _ => rolloverTask_idem asOf t

/-- Concrete witness for C1: a task scheduled on day 0, incomplete, rolled
over with as-of day 3. -/
theorem rollover_engine_idempotent_witness :
    (rolloverTask 3 defaultTask).scheduled_date = 3 ∧
    (rolloverTask 3 defaultTask).rollover_count = defaultTask.rollover_count + 1 ∧
    rollover 3 (rollover 3 [defaultTask]) = rollover 3 [defaultTask] := by
  have h := rollover_engine_idempotent 3 [defaultTask]
  have h1 := h.1 defaultTask (by simp) (by decide) (by decide)
  exact ⟨h1.2.1, h1.2.2, h.2.2⟩

/-- Modelled from the spec: one entry of the ranked list returned by the
external ranking service (task reference, numeric score, short reason),
spec section 4.1. -/
structure RankedEntry where
  task_id : Nat
  score : Int
  reason : String
deriving DecidableEq, Repr

/-- Modelled from the spec: the Ranker clamps scores returned by the external
service to the interval [0, 100] (spec section 4.1, responsibility (2)). -/
def clampScore (s : Int) : Int := max 0 (min 100 s)

/-- A task is eligible for "today" when it is not yet completed and is
scheduled on or before today (spec section 4.1 contract). -/
def eligible (today : Nat) (t : Task) : Bool :=
  !t.completed && decide (t.scheduled_date ≤ today)

/-- The eligible subset of the task store. -/
def eligibleTasks (today : Nat) (tasks : List Task) : List Task :=
  tasks.filter (eligible today)

/-- Sort key of the deterministic fallback heuristic (spec section 4.1,
responsibility (3)): earliest deadline first (tasks without a deadline last),
then highest rollover count, then earliest creation.  The rollover component
is negated so that the whole key is compared ascending. -/
def fallbackKey (t : Task) : Nat × Nat × Int × Nat :=
  ((match t.deadline with | some _ => 0 | none => 1),
   t.deadline.getD 0,
   -(t.rollover_count : Int),
   t.created_at)

/-- Lexicographic order on fallback keys. -/
def keyLE (x y : Nat × Nat × Int × Nat) : Prop :=
  x.1 < y.1 ∨ (x.1 = y.1 ∧ (x.2.1 < y.2.1 ∨ (x.2.1 = y.2.1 ∧
    (x.2.2.1 < y.2.2.1 ∨ (x.2.2.1 = y.2.2.1 ∧ x.2.2.2 ≤ y.2.2.2)))))

/-- The fallback heuristic ordering on tasks. -/
def fallbackLE (a b : Task) : Prop := keyLE (fallbackKey a) (fallbackKey b)

instance : DecidableRel keyLE := fun x y => by
  unfold keyLE; infer_instance

instance : DecidableRel fallbackLE := fun a b => by
  unfold fallbackLE; infer_instance

instance : IsTotal Task fallbackLE :=
  ⟨fun a b => by unfold fallbackLE keyLE; omega⟩

instance : IsTrans Task fallbackLE :=
  ⟨fun a b c h1 h2 => by
    unfold fallbackLE keyLE at h1 h2 ⊢; omega⟩

/-- Modelled from the spec: the deterministic fallback ordering the Ranker
uses when the external call fails (spec section 4.1, responsibility (3)). -/
def fallbackOrder (today : Nat) (tasks : List Task) : List Task :=
  List.insertionSort fallbackLE (eligibleTasks today tasks)

/-- Modelled from the spec: the Priority Ranker's own selection/merge policy
(spec section 4.1).  Given the outcome of the external ranking call (`none`
models failure, timeout or an unparseable result), it either takes the
externally ranked entries in order — re-hydrating each referenced task,
writing the clamped score and the reason onto it — capped at the daily limit,
or falls back to the deterministic heuristic ordering of the eligible tasks,
also capped at the limit.  The result is always an ordinary list: an external
failure is never fatal to the caller. -/
def applyRanking (today limit : Nat) (tasks : List Task)
    (external : Option (List RankedEntry)) : List Task :=
  match external with
  | some ranked =>
      (ranked.filterMap (fun e =>
        (tasks.find? (fun t => t.id == e.task_id)).map
          (fun t => { t with priority_score := clampScore e.score,
                             priority_reason := e.reason }))).take limit
  | none => (fallbackOrder today tasks).take limit

theorem clampScore_mem (s : Int) : 0 ≤ clampScore s ∧ clampScore s ≤ 100 := by
  unfold clampScore; omega

/-- C2: the Priority Ranker returns at most `daily_task_limit` tasks, and on
the external path every score it writes onto a returned task is clamped into
[0, 100]. -/
theorem ranker_cap_and_clamp (today limit : Nat) (tasks : List Task)
    (external : Option (List RankedEntry)) :
    (applyRanking today limit tasks external).length ≤ limit ∧
    (∀ ranked, external = some ranked →
      ∀ t ∈ applyRanking today limit tasks external,
        0 ≤ t.priority_score ∧ t.priority_score ≤ 100) := by
  constructor
  · cases external <;>
      simp [applyRanking, List.length_take]
  · rintro ranked rfl t ht
    simp only [applyRanking] at ht
    have ht2 := List.take_subset limit _ ht
    rcases List.mem_filterMap.mp ht2 with ⟨e, _, he⟩
    rcases Option.map_eq_some'.mp he with ⟨t0, _, ht0⟩
    rw [← ht0]
    exact clampScore_mem e.score

/-- Concrete witness for C2: one external entry with an out-of-range score 250
against a one-task store and limit 1. -/
theorem ranker_cap_and_clamp_witness :
    (applyRanking 0 1 [defaultTask] (some [⟨0, 250, "r"⟩])).length ≤ 1 ∧
    ∀ t ∈ applyRanking 0 1 [defaultTask] (some [⟨0, 250, "r"⟩]),
      0 ≤ t.priority_score ∧ t.priority_score ≤ 100 := by
  have h := ranker_cap_and_clamp 0 1 [defaultTask] (some [⟨0, 250, "r"⟩])
  exact ⟨h.1, h.2 [⟨0, 250, "r"⟩] rfl⟩

/-- C3: when the external ranking call fails (`external = none`), the Ranker
returns the fallback ordering: the result is non-empty whenever eligible
tasks exist (and the configured limit is at least 1), it is sorted by the
deterministic heuristic (earliest deadline, then highest rollover count, then
earliest creation), and each returned task is eligible; the failure is never
fatal because a plain list is still returned. -/
theorem ranker_fallback_total (today limit : Nat) (tasks : List Task)
    (hlim : 1 ≤ limit) (hne : eligibleTasks today tasks ≠ []) :
    applyRanking today limit tasks none ≠ [] ∧
    List.Sorted fallbackLE (applyRanking today limit tasks none) ∧
    ∀ t ∈ applyRanking today limit tasks none, eligible today t = true := by
  refine ⟨?_, ?_, ?_⟩
  · have hlen : (applyRanking today limit tasks none).length =
        min limit (eligibleTasks today tasks).length := by
      simp [applyRanking, fallbackOrder, List.length_take]
    intro hnil
    rw [hnil] at hlen
    have hpos : 0 < (eligibleTasks today tasks).length :=
      List.length_pos.mpr hne
    simp at hlen
    omega
  · have hs : List.Sorted fallbackLE (fallbackOrder today tasks) :=
      List.sorted_insertionSort fallbackLE (eligibleTasks today tasks)
    exact hs.sublist (List.take_sublist limit _)
  · intro t ht
    simp only [applyRanking] at ht
    have ht2 := List.take_subset limit _ ht
    have ht3 : t ∈ eligibleTasks today tasks := by
      have := (List.mem_insertionSort fallbackLE).mp ht2
      simpa [fallbackOrder] using this
    exact (List.mem_filter.mp ht3).2

/-- Concrete witness for C3: a one-task store with an eligible task, service
down, limit 1. -/
theorem ranker_fallback_total_witness :
    applyRanking 0 1 [defaultTask] none ≠ [] ∧
    List.Sorted fallbackLE (applyRanking 0 1 [defaultTask] none) ∧
    ∀ t ∈ applyRanking 0 1 [defaultTask] none, eligible 0 t = true :=
  ranker_fallback_total 0 1 [defaultTask] (by decide) (by decide)

/-- Row-set validity of `public.tasks` as declared by
backend/supabase_schema.sql lines 5-23: the only table-level uniqueness
constraint is the primary key on `id`.  (`title` is `not null`, which the
`String` field type already encodes; no column of the table carries `unique`.) -/
def tasksTableValid (rows : List Task) : Prop :=
  rows.Pairwise (fun a b => a.id ≠ b.id)

/-- The store-level dedup invariant asserted by the claim: any two distinct
rows with non-null `source_id` differ in their `(source, source_id)` pair. -/
def sourcePairsDistinct (rows : List Task) : Prop :=
  rows.Pairwise (fun a b => a.source_id ≠ none → b.source_id ≠ none →
    ¬(a.source = b.source ∧ a.source_id = b.source_id))

instance : DecidablePred tasksTableValid := fun rows => by
  unfold tasksTableValid; infer_instance

instance : DecidablePred sourcePairsDistinct := fun rows => by
  unfold sourcePairsDistinct; infer_instance

/-- A calendar event imported once. -/
def importedRowA : Task :=
  { defaultTask with id := 1, source := "calendar", source_id := some "evt-1" }

/-- The same calendar event imported a second time, under a fresh primary key. -/
def importedRowB : Task :=
  { defaultTask with id := 2, source := "calendar", source_id := some "evt-1" }

/-- C4 counterexample: the `tasks` table of the schema accepts two distinct
rows carrying the same `(source, source_id)` pair, because the schema declares
no uniqueness constraint on those columns — duplicate import is not prevented
at the store level. -/
theorem tasks_dedup_not_store_enforced :
    ¬(∀ rows : List Task, tasksTableValid rows → sourcePairsDistinct rows) := by
  intro h
  have h2 := h [importedRowA, importedRowB] (by decide)
  rcases List.pairwise_cons.mp h2 with ⟨hab, -⟩
  exact hab importedRowB (List.mem_singleton.mpr rfl)
    (by decide) (by decide) (by decide)

/-- C4 amended: the store enforces uniqueness of the primary key `id` only —
any two rows at distinct positions of a valid `tasks` table have distinct
ids — while a valid table may still contain two rows with identical
`(source, source_id)` pairs, so duplicate-import prevention is not a store
constraint. -/
theorem tasks_store_pk_only :
    (∀ rows : List Task, tasksTableValid rows →
      ∀ i j : Fin rows.length, i ≠ j → (rows.get i).id ≠ (rows.get j).id) ∧
    (∃ rows : List Task, tasksTableValid rows ∧ ¬sourcePairsDistinct rows) := by
  constructor
  · intro rows hv i j hij
    have hp := List.pairwise_iff_get.mp hv
    rcases lt_or_gt_of_ne (fun h => hij (Fin.ext h)) with h | h
    · exact hp i j h
    · exact fun he => hp j i h he.symm
  · exact ⟨[importedRowA, importedRowB], by decide, by decide⟩

/-- Concrete witness for the amended C4: the two imported rows have distinct
primary keys. -/
theorem tasks_store_pk_only_witness :
    (([importedRowA, importedRowB].get ⟨0, by decide⟩).id ≠
      ([importedRowA, importedRowB].get ⟨1, by decide⟩).id) := by
  exact tasks_store_pk_only.1 [importedRowA, importedRowB] (by decide)
    ⟨0, by decide⟩ ⟨1, by decide⟩ (by decide)

/-- A row of `public.daily_plans` (backend/supabase_schema.sql lines 26-32). -/
structure DailyPlanRow where
  id : Nat
  date : Nat
  task_ids : List Nat
  prioritization_reason : String
  created_at : Nat
deriving DecidableEq, Repr

/-- Row-set validity of `public.daily_plans`: primary key on `id` and the
declared `unique` constraint on `date` (schema line 28). -/
def dailyPlansTableValid (rows : List DailyPlanRow) : Prop :=
  rows.Pairwise (fun a b => a.id ≠ b.id) ∧
  rows.Pairwise (fun a b => a.date ≠ b.date)

instance : DecidablePred dailyPlansTableValid := fun rows => by
  unfold dailyPlansTableValid; infer_instance

/-- Modelled from the spec: the Daily Plan write performed on re-running
prioritization — "One plan per date; overwritten (not appended) on re-run"
(spec section 3).  If a row for the plan's date exists it is overwritten in
place (keeping its primary key); otherwise the plan is inserted. -/
def writeDailyPlan (rows : List DailyPlanRow) (p : DailyPlanRow) :
    List DailyPlanRow :=
  if rows.any (fun r => r.date == p.date) then
    rows.map (fun r => if r.date == p.date then { p with id := r.id } else r)
  else rows ++ [p]

/-- C5: in a valid `daily_plans` table any two distinct rows have distinct
dates, and when a plan already exists for a date, re-running prioritization
overwrites it — the row count is unchanged, the row for that date carries the
new task list and rationale, and date-uniqueness still holds. -/
theorem one_plan_per_date (rows : List DailyPlanRow)
    (hv : dailyPlansTableValid rows) (p : DailyPlanRow) :
    (∀ a ∈ rows, ∀ b ∈ rows, a ≠ b → a.date ≠ b.date) ∧
    ((∃ r ∈ rows, r.date = p.date) →
      (writeDailyPlan rows p).length = rows.length ∧
      (∃ r ∈ writeDailyPlan rows p, r.date = p.date ∧
        r.task_ids = p.task_ids ∧
        r.prioritization_reason = p.prioritization_reason) ∧
      (writeDailyPlan rows p).Pairwise (fun a b => a.date ≠ b.date)) := by
  have hdates : rows.Pairwise (fun a b => a.date ≠ b.date) := hv.2
  constructor
  · intro a ha b hb hab
    exact hdates.forall (fun x y h => h.symm) ha hb hab
  · rintro ⟨r, hr, hrd⟩
    have hany : rows.any (fun r => r.date == p.date) = true :=
      List.any_eq_true.mpr ⟨r, hr, by simp [hrd]⟩
    have hw : writeDailyPlan rows p =
        rows.map (fun r => if r.date == p.date then { p with id := r.id } else r) := by
      simp [writeDailyPlan, hany]
    refine ⟨by simp [hw], ?_, ?_⟩
    · refine ⟨{ p with id := r.id }, ?_, by simp, by simp, by simp⟩
      rw [hw]
      have : (fun r => if r.date == p.date then { p with id := r.id } else r) r =
          { p with id := r.id } := by simp [hrd]
      rw [← this]
      exact List.mem_map_of_mem _ hr
    · rw [hw]
      rw [List.pairwise_map]
      refine hdates.imp_of_mem ?_
      intro a b _ _ hne
      by_cases ha : a.date = p.date <;> by_cases hb : b.date = p.date <;>
        simp [ha, hb] <;> omega

/-- Concrete witness for C5: a single existing plan for day 7 is overwritten
by a re-run for day 7. -/
theorem one_plan_per_date_witness :
    (writeDailyPlan [⟨1, 7, [4], "old", 0⟩] ⟨9, 7, [5, 6], "new", 1⟩).length = 1 ∧
    ∃ r ∈ writeDailyPlan [⟨1, 7, [4], "old", 0⟩] ⟨9, 7, [5, 6], "new", 1⟩,
      r.date = 7 ∧ r.task_ids = [5, 6] ∧ r.prioritization_reason = "new" := by
  have h := (one_plan_per_date [⟨1, 7, [4], "old", 0⟩] (by decide)
    ⟨9, 7, [5, 6], "new", 1⟩).2 ⟨⟨1, 7, [4], "old", 0⟩, by simp, rfl⟩
  exact ⟨h.1, h.2.1⟩

/-- Component state of the PomodoroTimer React component that
`handleTimerComplete` reads and writes. -/
structure TimerState where
  isRunning : Bool
  sessionType : SessionKind
  completedPomodoros : Nat
  totalTimeSpent : Nat
  timeLeft : Nat
deriving DecidableEq, Repr

/-- `getSessionDuration` of the PomodoroTimer component: for a work session
it returns the active task's estimate in seconds when
`activeTask?.estimated_minutes` is truthy (the task exists and its estimate is
set and non-zero — JavaScript truthiness), otherwise the configured work
length; break durations come from the corresponding settings fields. -/
def getSessionDuration (activeTask : Option Task) (s : Settings) :
    SessionKind → Nat
  | .work =>
      match activeTask with
      | some t =>
          match t.estimated_minutes with
          | some m => if m ≠ 0 then m * 60 else s.pomodoro_work_minutes * 60
          | none => s.pomodoro_work_minutes * 60
      | none => s.pomodoro_work_minutes * 60
  | .short_break => s.pomodoro_short_break * 60
  | .long_break => s.pomodoro_long_break * 60

/-- `handleTimerComplete` of the PomodoroTimer component.  Returns the new
component state together with the duration reported to `onComplete` (`none`
when the handler does not call it).  For a work session the handler
increments the pomodoro count, accumulates the duration, reports it, and
switches to a long break exactly when the new count is a multiple of 4;
for a break session it reports nothing and switches back to work. -/
def handleTimerComplete (activeTask : Option Task) (s : Settings)
    (st : TimerState) : TimerState × Option Nat :=
  let duration := getSessionDuration activeTask s st.sessionType
  match st.sessionType with
  | .work =>
      let newCount := st.completedPomodoros + 1
      let nextType : SessionKind :=
        if newCount % 4 == 0 then .long_break else .short_break
      ({ st with isRunning := false
                 completedPomodoros := newCount
                 totalTimeSpent := st.totalTimeSpent + duration
                 sessionType := nextType
                 timeLeft := getSessionDuration activeTask s nextType },
       some duration)
  | _ =>
      ({ st with isRunning := false
                 sessionType := .work
                 timeLeft := getSessionDuration activeTask s .work },
       none)

/-- C6: the completion duration is reported to `onComplete` if and only if the
completed session is a work session; completing a short or long break reports
nothing and leaves the accumulated focus time and the pomodoro count
unchanged. -/
theorem work_sessions_only_accumulate (activeTask : Option Task)
    (s : Settings) (st : TimerState) :
    ((handleTimerComplete activeTask s st).2 =
        some (getSessionDuration activeTask s st.sessionType) ↔
      st.sessionType = .work) ∧
    (st.sessionType ≠ .work →
      (handleTimerComplete activeTask s st).2 = none ∧
      (handleTimerComplete activeTask s st).1.completedPomodoros =
        st.completedPomodoros ∧
      (handleTimerComplete activeTask s st).1.totalTimeSpent =
        st.totalTimeSpent) := by
  cases h : st.sessionType <;>
    simp [handleTimerComplete, h]

/-- Concrete witness for C6: completing a short break from a fresh state
reports nothing and changes no counter. -/
theorem work_sessions_only_accumulate_witness :
    (handleTimerComplete none defaultSettings
        ⟨true, .short_break, 2, 300, 0⟩).2 = none ∧
    (handleTimerComplete none defaultSettings
        ⟨true, .short_break, 2, 300, 0⟩).1.completedPomodoros = 2 ∧
    (handleTimerComplete none defaultSettings
        ⟨true, .short_break, 2, 300, 0⟩).1.totalTimeSpent = 300 :=
  (work_sessions_only_accumulate none defaultSettings
    ⟨true, .short_break, 2, 300, 0⟩).2 (by decide)

/-- A task whose estimate is set but zero, exercising JavaScript falsiness of
`activeTask?.estimated_minutes`. -/
def zeroEstimateTask : Task := { defaultTask with estimated_minutes := some 0 }

/-- C8 counterexample: with an active task whose `estimated_minutes` is the
set value 0, `getSessionDuration("work")` does not return
`estimated_minutes * 60 = 0`; because `0` is falsy in JavaScript, the code
falls through to the configured work length (25 minutes → 1500 seconds). -/
theorem work_duration_zero_estimate_cex :
    zeroEstimateTask.estimated_minutes = some 0 ∧
    getSessionDuration (some zeroEstimateTask) defaultSettings .work = 1500 ∧
    getSessionDuration (some zeroEstimateTask) defaultSettings .work ≠ 0 * 60 := by
  decide

/-- C8 amended: for an active task with a set and non-zero estimate, a work
session lasts `estimated_minutes * 60` seconds; with no active task, no
estimate, or a zero estimate it lasts `pomodoro_work_minutes * 60`; break
durations always come from the corresponding settings fields. -/
theorem work_duration_from_estimate (t : Task) (s : Settings) (m : Nat) :
    (t.estimated_minutes = some m → m ≠ 0 →
      getSessionDuration (some t) s .work = m * 60) ∧
    (t.estimated_minutes = some 0 ∨ t.estimated_minutes = none →
      getSessionDuration (some t) s .work = s.pomodoro_work_minutes * 60) ∧
    getSessionDuration none s .work = s.pomodoro_work_minutes * 60 ∧
    (∀ activeTask,
      getSessionDuration activeTask s .short_break =
        s.pomodoro_short_break * 60 ∧
      getSessionDuration activeTask s .long_break =
        s.pomodoro_long_break * 60) := by
  refine ⟨?_, ?_, rfl, fun activeTask => ⟨rfl, rfl⟩⟩
  · intro hm hz
    simp [getSessionDuration, hm, hz]
  · rintro (hm | hm) <;> simp [getSessionDuration, hm]

/-- Concrete witness for the amended C8: an active task with a 50-minute
estimate yields a 3000-second work session, and a zero estimate falls back to
the configured 1500 seconds. -/
theorem work_duration_from_estimate_witness :
    getSessionDuration (some { defaultTask with estimated_minutes := some 50 })
      defaultSettings .work = 50 * 60 ∧
    getSessionDuration (some zeroEstimateTask) defaultSettings .work =
      defaultSettings.pomodoro_work_minutes * 60 := by
  have h1 := work_duration_from_estimate
    { defaultTask with estimated_minutes := some 50 } defaultSettings 50
  have h2 := work_duration_from_estimate zeroEstimateTask defaultSettings 0
  exact ⟨h1.1 rfl (by decide), h2.2.1 (Or.inl rfl)⟩

/-- C9: after a completed work session the pomodoro count increases by one and
the next session type is a long break exactly when the new count is a multiple
of 4, a short break otherwise; after a completed break session the next
session type is work. -/
theorem pomodoro_four_cycle (activeTask : Option Task) (s : Settings)
    (st : TimerState) :
    (st.sessionType = .work →
      (handleTimerComplete activeTask s st).1.completedPomodoros =
        st.completedPomodoros + 1 ∧
      ((handleTimerComplete activeTask s st).1.sessionType = .long_break ↔
        (st.completedPomodoros + 1) % 4 = 0) ∧
      ((handleTimerComplete activeTask s st).1.sessionType = .short_break ↔
        (st.completedPomodoros + 1) % 4 ≠ 0)) ∧
    (st.sessionType ≠ .work →
      (handleTimerComplete activeTask s st).1.sessionType = .work) := by
  constructor
  · intro h
    by_cases h4 : (st.completedPomodoros + 1) % 4 = 0 <;>
      simp [handleTimerComplete, h, h4]
  · intro h
    cases hc : st.sessionType <;> simp_all [handleTimerComplete]

/-- Concrete witness for C9: completing the fourth work session switches to a
long break; completing a long break switches back to work. -/
theorem pomodoro_four_cycle_witness :
    (handleTimerComplete none defaultSettings
        ⟨true, .work, 3, 0, 0⟩).1.completedPomodoros = 4 ∧
    (handleTimerComplete none defaultSettings
        ⟨true, .work, 3, 0, 0⟩).1.sessionType = .long_break ∧
    (handleTimerComplete none defaultSettings
        ⟨false, .long_break, 4, 0, 0⟩).1.sessionType = .work := by
  have h1 := (pomodoro_four_cycle none defaultSettings
    ⟨true, .work, 3, 0, 0⟩).1 rfl
  have h2 := (pomodoro_four_cycle none defaultSettings
    ⟨false, .long_break, 4, 0, 0⟩).2 (by decide)
  exact ⟨h1.1, h1.2.1.mpr (by decide), h2⟩

/-- A priority badge of the Dashboard component: display label and CSS class. -/
structure PriorityBadge where
  label : String
  style : String
deriving DecidableEq, Repr

/-- `getPriorityBadge` of the Dashboard component
(src/frontend/src/components/Dashboard.jsx lines 48-52). -/
def getPriorityBadge (score : Int) : PriorityBadge :=
  if score ≥ 80 then ⟨"Critical", "priority-high"⟩
  else if score ≥ 50 then ⟨"Important", "priority-medium"⟩
  else ⟨"Normal", "priority-low"⟩

/-- C10: priority badges are a total function of the numeric score —
"Critical" exactly when the score is at least 80, "Important" exactly when it
is in [50, 80), and "Normal" exactly when it is below 50. -/
theorem priority_badge_total (score : Int) :
    ((getPriorityBadge score).label = "Critical" ↔ 80 ≤ score) ∧
    ((getPriorityBadge score).label = "Important" ↔ 50 ≤ score ∧ score < 80) ∧
    ((getPriorityBadge score).label = "Normal" ↔ score < 50) := by
  unfold getPriorityBadge
  by_cases h80 : score ≥ 80
  · simp [h80]
    omega
  · by_cases h50 : score ≥ 50 <;> simp [h80, h50] <;> omega

/-- The whitespace characters String.prototype.trim removes, restricted to the
ASCII range (space, tab, line feed, carriage return, vertical tab, form
feed). -/
def isJsWhitespace (c : Char) : Bool :=
  c == ' ' || c == '\t' || c == '\n' || c == '\r' || c == '\x0b' || c == '\x0c'

/-- JavaScript `trim()` on a character list: drop whitespace from both ends. -/
def jsTrimList (l : List Char) : List Char :=
  ((l.dropWhile isJsWhitespace).reverse.dropWhile isJsWhitespace).reverse

/-- JavaScript `trim()` on a string. -/
def jsTrim (t : String) : String := ⟨jsTrimList t.data⟩

theorem jsTrimList_eq_nil_iff (l : List Char) :
    jsTrimList l = [] ↔ ∀ c ∈ l, isJsWhitespace c = true := by
  unfold jsTrimList
  rw [List.reverse_eq_nil_iff, List.dropWhile_eq_nil_iff]
  constructor
  · intro h c hc
    by_cases hmem : c ∈ l.dropWhile isJsWhitespace
    · exact h c (List.mem_reverse.mpr hmem)
    · have hsplit : l = l.takeWhile isJsWhitespace ++ l.dropWhile isJsWhitespace :=
        (List.takeWhile_append_dropWhile _ _).symm
      rw [hsplit] at hc
      rcases List.mem_append.mp hc with h1 | h1
      · exact List.mem_takeWhile_imp h1
      · exact absurd h1 hmem
  · intro h c hc
    exact h c (List.dropWhile_sublist _ |>.mem (List.mem_reverse.mp hc))

theorem jsTrim_eq_empty_iff (t : String) :
    jsTrim t = "" ↔ ∀ c ∈ t.data, isJsWhitespace c = true := by
  unfold jsTrim
  rw [show ("" : String) = ⟨[]⟩ from rfl]
  constructor
  · intro h
    exact (jsTrimList_eq_nil_iff t.data).mp (congrArg String.data h)
  · intro h
    exact congrArg String.mk ((jsTrimList_eq_nil_iff t.data).mpr h)

/-- The form state of the AddTaskDialog component. -/
structure AddTaskForm where
  title : String
  description : String
  deadline : Option Nat
  deadlineTime : Option String
  estimatedMinutes : Nat
  category : String
  isRecurring : Bool
  recurrenceType : String
  recurrenceInterval : Nat
deriving DecidableEq, Repr

/-- The payload `handleSubmit` passes to `onAdd`. -/
structure TaskPayload where
  title : String
  description : String
  deadline : Option Nat
  deadline_time : Option String
  estimated_minutes : Nat
  category : String
  source : String
  is_recurring : Bool
  recurrence_type : Option String
  recurrence_interval : Nat
deriving DecidableEq, Repr

/-- `handleSubmit` of the AddTaskDialog component: when the trimmed title is
empty (`if (!title.trim()) return;`) no payload is produced and `onAdd` is not
invoked; otherwise the payload carries the trimmed title and description,
`source: "manual"`, and the recurrence fields. -/
def handleSubmit (f : AddTaskForm) : Option TaskPayload :=
  if jsTrim f.title = "" then none
  else
    some
      { title := jsTrim f.title
        description := jsTrim f.description
        deadline := f.deadline
        deadline_time := f.deadlineTime
        estimated_minutes := f.estimatedMinutes
        category := f.category
        source := "manual"
        is_recurring := f.isRecurring
        recurrence_type := if f.isRecurring then some f.recurrenceType else none
        recurrence_interval := f.recurrenceInterval }

/-- C7: an add-task submission whose title is empty or consists only of
whitespace creates nothing (`onAdd` is never invoked), and every accepted
submission carries a non-empty trimmed title and `source = "manual"`. -/
theorem add_task_title_validated (f : AddTaskForm) :
    ((∀ c ∈ f.title.data, isJsWhitespace c = true) → handleSubmit f = none) ∧
    (∀ p, handleSubmit f = some p →
      p.title = jsTrim f.title ∧ p.title ≠ "" ∧ p.source = "manual") := by
  constructor
  · intro h
    simp [handleSubmit, (jsTrim_eq_empty_iff f.title).mpr h]
  · intro p hp
    unfold handleSubmit at hp
    by_cases h : jsTrim f.title = ""
    · simp [h] at hp
    · rw [if_neg h] at hp
      rcases Option.some.injEq _ _ ▸ hp with rfl
      exact ⟨rfl, h, rfl⟩

/-- Concrete witness for C7: a blank title " " is rejected; the title
" write spec " is accepted with trimmed title and source "manual". -/
theorem add_task_title_validated_witness :
    handleSubmit ⟨"  ", "", none, none, 25, "general", false, "daily", 1⟩ =
      none ∧
    ∀ p, handleSubmit
        ⟨" write spec ", "", none, none, 25, "general", false, "daily", 1⟩ =
        some p →
      p.title = jsTrim " write spec " ∧ p.title ≠ "" ∧ p.source = "manual" := by
  constructor
  · exact (add_task_title_validated
      ⟨"  ", "", none, none, 25, "general", false, "daily", 1⟩).1 (by decide)
  · exact (add_task_title_validated
      ⟨" write spec ", "", none, none, 25, "general", false, "daily", 1⟩).2

end FocusFlow
